import Mathlib

/-!
Verification development for the `langgraph-server` repository
(`src/langgraph_agent/agent.py`, `main.py`, `config.py`).

The Python code is shallowly embedded: each Lean definition mirrors one
Python function or constant, with the same name where Lean allows it.
-/

namespace LanggraphServer

/-! ## Data model: LangChain message objects

`langchain_core.messages` typed message objects, restricted to the three
constructors the code builds (`HumanMessage`, `AIMessage`, `SystemMessage`).
-/

/-- A LangChain `BaseMessage`: one of `HumanMessage`, `AIMessage`,
`SystemMessage`, each carrying its `content` string. -/
inductive BaseMessage where
  | human (content : String)
  | ai (content : String)
  | system (content : String)
deriving DecidableEq, Repr

/-- A state-level message dict `{"role": ..., "content": ...}` as stored in
`AgentState.messages` (`agent.py`, `AgentState`: `List[Dict[str, str]]`). -/
structure DictMessage where
  role : String
  content : String
deriving DecidableEq, Repr

/-! ## Python dynamic values reaching `MessageFormatter.format_message`

`format_message` receives `Union[Dict[str, Any], str, BaseMessage]` (with a
final `else` branch for anything else).  Dicts are modelled as association
lists of string keys to string values, which covers every dict the
repository itself constructs. -/

/-- A Python dict with string keys and values, as an association list
(keys unique in Python; lookup takes the first binding). -/
abbrev PyDict := List (String × String)

/-- Models CPython `repr`/`str` of a `str` value without quote or escape
characters: the text wrapped in single quotes. -/
def pyStrRepr (s : String) : String := "'" ++ s ++ "'"

/-- Models CPython `str()` of a string-keyed, string-valued dict:
`\x7b'k1': 'v1', 'k2': 'v2'\x7d`. -/
def pyDictRepr (d : PyDict) : String :=
  "\x7b" ++ String.intercalate ", " (d.map fun kv => pyStrRepr kv.1 ++ ": " ++ pyStrRepr kv.2) ++ "\x7d"

/-- The possible runtime shapes of the `msg` argument of
`MessageFormatter.format_message`: an already-typed `BaseMessage`, a dict,
a raw string, or any other object (carried as its `str()` representation). -/
inductive PyInput where
  | base (m : BaseMessage)
  | dict (d : PyDict)
  | str (s : String)
  | other (strRepr : String)
deriving DecidableEq, Repr

/-- `MessageFormatter.format_message` (`agent.py` lines 37-64):
`BaseMessage` inputs are returned unchanged; dicts dispatch on
`msg.get("role", "user")` with `content = msg.get("content", str(msg))`,
unknown roles falling back to `HumanMessage`; raw strings wrap as
`HumanMessage`; anything else wraps `str(msg)` as `HumanMessage`. -/
def format_message : PyInput → BaseMessage
  | .base m => m
  | .dict d =>
      let role := (d.lookup "role").getD "user"
      let content := (d.lookup "content").getD (pyDictRepr d)
      if role = "user" then .human content
      else if role = "assistant" then .ai content
      else if role = "system" then .system content
      else .human content
  | .str s => .human s
  | .other r => .human r

/-- `MessageFormatter.format_messages` (`agent.py` lines 66-89): a
`SystemMessage` carrying the system prompt, followed by each input message
formatted in order.  (The per-message `try/except` in the source never
fires: `format_message` is total; the embedding is therefore the plain
map.) -/
def format_messages (messages : List PyInput) (system_prompt : String) : List BaseMessage :=
  BaseMessage.system system_prompt :: messages.map format_message

/-! ## Configuration (`config.py`) -/

/-- `config.DEFAULT_MODEL`. -/
def DEFAULT_MODEL : String := "gemini-1.5-flash"

/-- `config.DEFAULT_TEMPERATURE` (Python float `0.7`, embedded as the exact
rational it denotes in source text). -/
def DEFAULT_TEMPERATURE : ℚ := 7 / 10

/-- `config.DEFAULT_MAX_TOKENS`. -/
def DEFAULT_MAX_TOKENS : ℕ := 4096

/-- `config.DEFAULT_SESSION_ID`. -/
def DEFAULT_SESSION_ID : String := "default"

/-- `config.SYSTEM_PROMPT`. -/
def SYSTEM_PROMPT : String :=
  "你是一个有用的AI助手，基于 LangGraph 构建。\n请用中文回复用户的问题，保持友好和专业的态度。\n如果遇到不确定的问题，请诚实说明并提供可能的建议。"

/-- `config.INPUT_MAX_LENGTH`. -/
def INPUT_MAX_LENGTH : ℕ := 4000

/-- `config.INPUT_MIN_LENGTH`. -/
def INPUT_MIN_LENGTH : ℕ := 1

/-- `config.SESSION_ID_MAX_LENGTH`. -/
def SESSION_ID_MAX_LENGTH : ℕ := 100

/-- `config.SESSION_ID_MIN_LENGTH`. -/
def SESSION_ID_MIN_LENGTH : ℕ := 1

/-- `config.REQUEST_TIMEOUT` (seconds). -/
def REQUEST_TIMEOUT : ℕ := 30

/-- `config.LLM_TIMEOUT` (seconds). -/
def LLM_TIMEOUT : ℕ := 60

/-- `config.AgentConfig`: model id, temperature, max tokens, system prompt,
API key (present after `__post_init__` validation succeeds). -/
structure AgentConfig where
  model : String := DEFAULT_MODEL
  temperature : ℚ := DEFAULT_TEMPERATURE
  max_tokens : ℕ := DEFAULT_MAX_TOKENS
  system_prompt : String := SYSTEM_PROMPT
  api_key : String
deriving DecidableEq, Repr

/-! ## LLM client construction (`agent.py`, `_create_llm`) -/

/-- The keyword arguments of the `ChatGoogleGenerativeAI` constructor that
are relevant here.  The constructor accepts an optional `timeout` keyword
defaulting to `None`; a field left `none` means the keyword was not
supplied by the caller. -/
structure ChatGoogleGenerativeAIParams where
  model : String
  google_api_key : String
  temperature : ℚ
  max_output_tokens : ℕ
  timeout : Option ℕ
deriving DecidableEq, Repr

/-- `LangGraphAgent._create_llm` (`agent.py` lines 108-124): constructs the
client from `model`, `google_api_key`, `temperature`, `max_output_tokens`
only; no `timeout` keyword is passed, so it stays at its `None` default. -/
def create_llm (config : AgentConfig) : ChatGoogleGenerativeAIParams :=
  { model := config.model
    google_api_key := config.api_key
    temperature := config.temperature
    max_output_tokens := config.max_tokens
    timeout := none }

/-! ## The conversation node (`agent.py`, `_call_model`) -/

/-- Outcome of `self.llm.invoke(formatted_messages)`: the call raises an
exception (carried as its `str(e)` text), returns a falsy/None response, or
returns a response with the given `content` string. -/
inductive LLMOutcome where
  | raises (e : String)
  | falsy
  | returns (content : String)
deriving DecidableEq, Repr

/-- An LLM is modelled as a function from the formatted prompt to an
outcome. -/
abbrev LLM := List BaseMessage → LLMOutcome

/-- The fallback content `_call_model` builds when the model call raises
`e`: the Python f-string `f"处理请求时发生错误: \x7bstr(e)\x7d"`. -/
def errorFallback (e : String) : String := "处理请求时发生错误: " ++ e

/-- The fixed content `_call_model` substitutes when the model response is
empty. -/
def emptyFallback : String := "抱歉，我暂时无法回答您的问题。"

/-- View a state dict message as the `PyInput` that `format_messages`
receives for it: the dict `\x7b"role": r, "content": c\x7d`. -/
def DictMessage.toPyInput (m : DictMessage) : PyInput :=
  .dict [("role", m.role), ("content", m.content)]

/-- The prompt `_call_model` assembles for the state messages: `agent.py`
lines 174-177, `format_messages(messages, self.config.system_prompt)`. -/
def assembled_prompt (system_prompt : String) (messages : List DictMessage) :
    List BaseMessage :=
  format_messages (messages.map DictMessage.toPyInput) system_prompt

/-- `LangGraphAgent._call_model` (`agent.py` lines 160-190): formats the
state messages, invokes the model, and returns the state delta
`\x7b"messages": [new assistant dict]\x7d` — the error fallback if the call
raised, the fixed cannot-answer text if the response is falsy or has empty
content, the response content otherwise. -/
def call_model (llm : LLM) (system_prompt : String)
    (messages : List DictMessage) : List DictMessage :=
  match llm (assembled_prompt system_prompt messages) with
  | .raises e => [⟨"assistant", errorFallback e⟩]
  | .falsy => [⟨"assistant", emptyFallback⟩]
  | .returns c =>
      if c = "" then [⟨"assistant", emptyFallback⟩]
      else [⟨"assistant", c⟩]

/-- One `app.ainvoke(\x7b"messages": [user_msg]\x7d, thread_id)` turn of the
compiled single-node graph: the checkpointer restores the thread's prior
`messages`, the `Annotated[..., operator.add]` reducer appends the input
message, the `agent` node runs `_call_model` on that state, and its
returned delta is appended by the same reducer.  The final state is
checkpointed for the thread and returned. -/
def agent_step (llm : LLM) (system_prompt : String)
    (history : List DictMessage) (user_msg : DictMessage) : List DictMessage :=
  let st := history ++ [user_msg]
  st ++ call_model llm system_prompt st

/-! ## Session store (the `MemorySaver` checkpointer keyed by `thread_id`) -/

/-- The checkpointer's storage: `thread_id` to accumulated state messages. -/
abbrev Store := List (String × List DictMessage)

/-- History restored for a thread: the checkpointed messages, or the empty
sequence for an unseen `thread_id`. -/
def get_history (st : Store) (session_id : String) : List DictMessage :=
  (st.lookup session_id).getD []

/-- Checkpoint the thread's new state (replacing any prior entry). -/
def set_history (st : Store) (session_id : String)
    (messages : List DictMessage) : Store :=
  (session_id, messages) :: st.filter fun kv => kv.1 ≠ session_id

/-! ## HTTP surface (`main.py`) -/

/-- Result of a `POST /chat` request: a 200 with a `ChatResponse` body, or
an `HTTPException` with a status code and detail string. -/
inductive ChatResult where
  | ok (response : String) (session_id : String)
  | httpError (status_code : ℕ) (detail : String)
deriving DecidableEq, Repr

/-- Pydantic validation of `ChatRequest` (`main.py` lines 38-54):
`message` constrained to `INPUT_MIN_LENGTH..INPUT_MAX_LENGTH` characters,
`session_id` to `SESSION_ID_MIN_LENGTH..SESSION_ID_MAX_LENGTH`.  FastAPI
rejects a body failing these with status 422 before the handler runs. -/
def validate_chat_request (message session_id : String) : Bool :=
  INPUT_MIN_LENGTH ≤ message.length && message.length ≤ INPUT_MAX_LENGTH &&
  (SESSION_ID_MIN_LENGTH ≤ session_id.length && session_id.length ≤ SESSION_ID_MAX_LENGTH)

/-- The `chat` handler (`main.py` lines 172-235) on an already-validated
request.  `agentReady` is `agent is not None`; when false the handler
raises 503 before touching the agent.  Otherwise it runs one graph turn,
checks the returned `messages` are non-empty, and answers 200 with the
last message's content.  Returns the result together with the store after
the request. -/
def chat (agentReady : Bool) (llm : LLM) (system_prompt : String)
    (st : Store) (message session_id : String) : ChatResult × Store :=
  if !agentReady then
    (.httpError 503 "Agent 服务暂时不可用，请稍后重试", st)
  else
    let history := get_history st session_id
    let newMessages := agent_step llm system_prompt history ⟨"user", message⟩
    match newMessages.getLast? with
    | none => (.httpError 500 "Agent 响应为空，请重试", st)
    | some last =>
        (.ok last.content session_id, set_history st session_id newMessages)

/-- `POST /chat` end to end: FastAPI body validation (422 on failure, with
the store untouched), then the `chat` handler. -/
def post_chat (agentReady : Bool) (llm : LLM) (system_prompt : String)
    (st : Store) (message session_id : String) : ChatResult × Store :=
  if validate_chat_request message session_id then
    chat agentReady llm system_prompt st message session_id
  else
    (.httpError 422 "validation error", st)

/-- Run a sequence of `POST /chat` requests, all sharing one `session_id`,
threading the store through. -/
def run_session (llm : LLM) (system_prompt : String) (session_id : String)
    (msgs : List String) (st : Store) : Store :=
  msgs.foldl (fun acc m => (post_chat true llm system_prompt acc m session_id).2) st

/-! ## Helper lemmas -/

theorem get_history_set_history (st : Store) (sid : String)
    (ms : List DictMessage) : get_history (set_history st sid ms) sid = ms := by
  simp [get_history, set_history, List.lookup]

theorem call_model_reply_shape (llm : LLM) (sys : String)
    (msgs : List DictMessage) :
    ∃ r, call_model llm sys msgs = [⟨"assistant", r⟩] := by
  cases h : llm (assembled_prompt sys msgs) with
  | raises e => exact ⟨errorFallback e, by simp [call_model, h]⟩
  | falsy => exact ⟨emptyFallback, by simp [call_model, h]⟩
  | returns c =>
      by_cases hc : c = ""
      · exact ⟨emptyFallback, by simp [call_model, h, hc]⟩
      · exact ⟨c, by simp [call_model, h, hc]⟩

/-! ## Claim theorems -/

/-- C2: the assembled prompt for a model invocation is exactly the system
prompt message, followed by every accumulated history message formatted in
chronological order, followed by the formatted new user message; nothing
is reordered, dropped, or truncated (length = history length + 2). -/
theorem assembled_prompt_is_system_history_user (system_prompt : String)
    (history : List DictMessage) (user_msg : DictMessage) :
    assembled_prompt system_prompt (history ++ [user_msg]) =
      BaseMessage.system system_prompt ::
        ((history.map fun m => format_message m.toPyInput) ++
          [format_message user_msg.toPyInput]) ∧
    (assembled_prompt system_prompt (history ++ [user_msg])).length =
      history.length + 2 := by
  constructor
  · simp [assembled_prompt, format_messages]
  · simp [assembled_prompt, format_messages]

/-- C4: normalization of a record carrying role and content maps the roles
"user", "assistant", "system" to messages of that same role and any other
role to a "user" message; raw text becomes a "user" message with that text
as content; any other shape becomes a "user" message whose content is the
input's textual representation; and normalization always yields a result. -/
theorem format_message_normalization_cases :
    (∀ (d : PyDict) (c : String), d.lookup "content" = some c →
      ((d.lookup "role" = some "user" →
          format_message (.dict d) = .human c) ∧
       (d.lookup "role" = some "assistant" →
          format_message (.dict d) = .ai c) ∧
       (d.lookup "role" = some "system" →
          format_message (.dict d) = .system c) ∧
       (∀ r, d.lookup "role" = some r →
          r ≠ "user" → r ≠ "assistant" → r ≠ "system" →
          format_message (.dict d) = .human c))) ∧
    (∀ s, format_message (.str s) = .human s) ∧
    (∀ r, format_message (.other r) = .human r) ∧
    (∀ x, ∃ m, format_message x = m) := by
  refine ⟨?_, fun s => rfl, fun r => rfl, fun x => ⟨_, rfl⟩⟩
  intro d c hc
  refine ⟨fun hr => ?_, fun hr => ?_, fun hr => ?_, fun r hr h1 h2 h3 => ?_⟩
  · simp [format_message, hc, hr]
  · simp [format_message, hc, hr]
  · simp [format_message, hc, hr]
  · simp [format_message, hc, hr, h1, h2, h3]

/-- Witness for C4 at a concrete record input. -/
theorem format_message_normalization_cases_witness :
    format_message (.dict [("role", "assistant"), ("content", "hi")]) =
      .ai "hi" :=
  (format_message_normalization_cases.1
    [("role", "assistant"), ("content", "hi")] "hi" (by decide)).2.1 (by decide)

/-- C9: normalization is idempotent — an already-normalized message (fed
back as a typed `BaseMessage` input) is returned unchanged, so normalizing
a normalization result reproduces it. -/
theorem format_message_idempotent (x : PyInput) :
    format_message (.base (format_message x)) = format_message x := rfl

/-- C10: a record with a role but no content field normalizes without
failing to a message of the mapped role whose content is the textual
representation of the entire record, and that content is never empty. -/
theorem format_message_role_without_content (d : PyDict) (r : String)
    (hr : d.lookup "role" = some r) (hc : d.lookup "content" = none) :
    format_message (.dict d) =
      (if r = "user" then .human (pyDictRepr d)
       else if r = "assistant" then .ai (pyDictRepr d)
       else if r = "system" then .system (pyDictRepr d)
       else .human (pyDictRepr d)) ∧
    pyDictRepr d ≠ "" := by
  constructor
  · simp [format_message, hr, hc]
  · intro h
    have h1 := congrArg String.length h
    rw [pyDictRepr, String.length_append, String.length_append] at h1
    have h2 : ("\x7b" : String).length = 1 := rfl
    have h3 : ("\x7d" : String).length = 1 := rfl
    have h4 : ("" : String).length = 0 := rfl
    omega

/-- Witness for C10 at a concrete record input. -/
theorem format_message_role_without_content_witness :
    format_message (.dict [("role", "system")]) =
      .system (pyDictRepr [("role", "system")]) ∧
    pyDictRepr [("role", "system")] ≠ "" := by
  have h := format_message_role_without_content [("role", "system")] "system"
    (by decide) (by decide)
  exact ⟨by rw [h.1]; rfl, h.2⟩

/-- C5: a model invocation that succeeds but returns empty content makes
the conversation node substitute the fixed cannot-answer assistant message;
the step terminates normally with that message, which is distinct from the
error-fallback text of the failure branch. -/
theorem call_model_empty_response_substitutes (llm : LLM) (sys : String)
    (msgs : List DictMessage)
    (h : llm (assembled_prompt sys msgs) = .returns "") :
    call_model llm sys msgs = [⟨"assistant", emptyFallback⟩] ∧
    ∀ e, emptyFallback ≠ errorFallback e := by
  refine ⟨by simp [call_model, h], fun e he => ?_⟩
  have h1 : emptyFallback.data.head? = (errorFallback e).data.head? := by
    rw [he]
  rw [errorFallback] at h1
  simp [emptyFallback, String.data_append] at h1

/-- Witness for C5 at a concrete model returning empty content. -/
theorem call_model_empty_response_substitutes_witness :
    call_model (fun _ => LLMOutcome.returns "") SYSTEM_PROMPT [] =
      [⟨"assistant", emptyFallback⟩] ∧
    ∀ e, emptyFallback ≠ errorFallback e :=
  call_model_empty_response_substitutes (fun _ => LLMOutcome.returns "")
    SYSTEM_PROMPT [] rfl

/-- C8: a chat request handled while the agent is not initialized gets a
503 error, the store is unchanged, and the conversation step is never
invoked (the outcome is independent of the model and system prompt). -/
theorem chat_uninitialized_returns_503 (llm llm2 : LLM) (sys sys2 : String)
    (st : Store) (message session_id : String) :
    chat false llm sys st message session_id =
      (.httpError 503 "Agent 服务暂时不可用，请稍后重试", st) ∧
    chat false llm sys st message session_id =
      chat false llm2 sys2 st message session_id :=
  ⟨rfl, rfl⟩

theorem post_chat_valid_step (llm : LLM) (sys : String) (st : Store)
    (m sid : String) (h : validate_chat_request m sid = true) :
    ∃ r, post_chat true llm sys st m sid =
      (.ok r sid,
       set_history st sid
         (get_history st sid ++ [⟨"user", m⟩, ⟨"assistant", r⟩])) := by
  obtain ⟨r, hr⟩ := call_model_reply_shape llm sys (get_history st sid ++ [⟨"user", m⟩])
  exact ⟨r, by simp [post_chat, h, chat, agent_step, hr]⟩

theorem run_session_history_general (llm : LLM) (sys sid : String)
    (msgs : List String) (st : Store)
    (hvalid : ∀ m ∈ msgs, validate_chat_request m sid = true) :
    ∃ replies : List String, replies.length = msgs.length ∧
      get_history (run_session llm sys sid msgs st) sid =
        get_history st sid ++
          ((msgs.zip replies).flatMap fun p =>
            [⟨"user", p.1⟩, ⟨"assistant", p.2⟩]) := by
  induction msgs generalizing st with
  | nil => exact ⟨[], rfl, by simp [run_session]⟩
  | cons m rest ih =>
      obtain ⟨r, hr⟩ := post_chat_valid_step llm sys st m sid (hvalid m (by simp))
      obtain ⟨replies, hlen, hhist⟩ :=
        ih ((post_chat true llm sys st m sid).2) (fun x hx => hvalid x (by simp [hx]))
      refine ⟨r :: replies, by simp [hlen], ?_⟩
      have hstep : run_session llm sys sid (m :: rest) st =
          run_session llm sys sid rest ((post_chat true llm sys st m sid).2) := rfl
      rw [hstep, hhist, hr]
      simp [get_history_set_history]

/-- C3: a sequence of N validated chat requests sharing one session id
appends, per request, exactly one user message followed by one assistant
message, so the resulting history is the chronological interleaving of the
N user texts with N replies and has length exactly 2N. -/
theorem session_history_two_per_turn (llm : LLM) (sys sid : String)
    (msgs : List String)
    (hvalid : ∀ m ∈ msgs, validate_chat_request m sid = true) :
    ∃ replies : List String, replies.length = msgs.length ∧
      get_history (run_session llm sys sid msgs []) sid =
        ((msgs.zip replies).flatMap fun p =>
          [⟨"user", p.1⟩, ⟨"assistant", p.2⟩]) ∧
      (get_history (run_session llm sys sid msgs []) sid).length =
        2 * msgs.length := by
  obtain ⟨replies, hlen, hhist⟩ :=
    run_session_history_general llm sys sid msgs [] hvalid
  have hhist' : get_history (run_session llm sys sid msgs []) sid =
      ((msgs.zip replies).flatMap fun p =>
        [⟨"user", p.1⟩, ⟨"assistant", p.2⟩]) := by
    simpa [get_history] using hhist
  refine ⟨replies, hlen, hhist', ?_⟩
  rw [hhist']
  simp [List.length_flatMap, Function.comp_def]
  omega

/-- Witness for C3: two requests on session "s1" yield a four-message
history interleaving the two user texts with two replies. -/
theorem session_history_two_per_turn_witness :
    ∃ replies : List String,
      replies.length = (["Hello", "Second"] : List String).length ∧
      get_history (run_session (fun _ => LLMOutcome.returns "ok")
          SYSTEM_PROMPT "s1" ["Hello", "Second"] []) "s1" =
        (((["Hello", "Second"] : List String).zip replies).flatMap fun p =>
          [⟨"user", p.1⟩, ⟨"assistant", p.2⟩]) ∧
      (get_history (run_session (fun _ => LLMOutcome.returns "ok")
          SYSTEM_PROMPT "s1" ["Hello", "Second"] []) "s1").length = 2 * 2 :=
  session_history_two_per_turn (fun _ => LLMOutcome.returns "ok")
    SYSTEM_PROMPT "s1" ["Hello", "Second"] (by decide)

/-- C7: a chat body with an empty message is rejected with 422 before the
handler runs (store untouched); a message of exactly 4000 characters
passes validation and reaches the handler; 4001 characters is rejected
with 422; and session_id is bounded by the same pattern to 1..100. -/
theorem post_chat_length_boundaries (agentReady : Bool) (llm : LLM)
    (sys : String) (st : Store) :
    post_chat agentReady llm sys st "" "s1" =
      (.httpError 422 "validation error", st) ∧
    validate_chat_request (String.mk (List.replicate 4000 'a')) "s1" = true ∧
    post_chat agentReady llm sys st (String.mk (List.replicate 4000 'a')) "s1" =
      chat agentReady llm sys st (String.mk (List.replicate 4000 'a')) "s1" ∧
    post_chat agentReady llm sys st (String.mk (List.replicate 4001 'a')) "s1" =
      (.httpError 422 "validation error", st) ∧
    validate_chat_request "hello" "" = false ∧
    validate_chat_request "hello" (String.mk (List.replicate 100 's')) = true ∧
    validate_chat_request "hello" (String.mk (List.replicate 101 's')) = false := by
  have len4000 : (String.mk (List.replicate 4000 'a')).length = 4000 := by
    rw [String.length_mk, List.length_replicate]
  have len4001 : (String.mk (List.replicate 4001 'a')).length = 4001 := by
    rw [String.length_mk, List.length_replicate]
  have len100 : (String.mk (List.replicate 100 's')).length = 100 := by
    rw [String.length_mk, List.length_replicate]
  have len101 : (String.mk (List.replicate 101 's')).length = 101 := by
    rw [String.length_mk, List.length_replicate]
  have h4000 : validate_chat_request (String.mk (List.replicate 4000 'a')) "s1" = true := by
    simp only [validate_chat_request, len4000]
    decide
  have h4001 : validate_chat_request (String.mk (List.replicate 4001 'a')) "s1" = false := by
    simp only [validate_chat_request, len4001]
    decide
  have h100 : validate_chat_request "hello" (String.mk (List.replicate 100 's')) = true := by
    simp only [validate_chat_request, len100]
    decide
  have h101 : validate_chat_request "hello" (String.mk (List.replicate 101 's')) = false := by
    simp only [validate_chat_request, len101]
    decide
  have h0 : validate_chat_request "" "s1" = false := by decide
  have hsid0 : validate_chat_request "hello" "" = false := by decide
  refine ⟨by simp [post_chat, h0], h4000, ?_, ?_, hsid0, h100, h101⟩
  · unfold post_chat
    rw [h4000, if_pos rfl]
  · unfold post_chat
    rw [h4001, if_neg (by decide)]

/-- Counterexample to C1 as stated: when the model call raises, the
assistant fallback text embeds the raised exception's text (it is the
error prefix concatenated with it), and two different exceptions give two
different response bodies — the fallback is not a fixed text free of the
raw exception. -/
theorem chat_error_text_contains_exception :
    (post_chat true (fun _ => LLMOutcome.raises "boom")
        SYSTEM_PROMPT [] "hi" "s1").1 =
      .ok ("处理请求时发生错误: " ++ "boom") "s1" ∧
    (post_chat true (fun _ => LLMOutcome.raises "oops")
        SYSTEM_PROMPT [] "hi" "s1").1 ≠
      (post_chat true (fun _ => LLMOutcome.raises "boom")
        SYSTEM_PROMPT [] "hi" "s1").1 := by
  constructor
  · rfl
  · decide

/-- C1 amended: when the model call raises an exception, the conversation
node catches it and produces an assistant message whose content is the
fixed error prefix followed by the exception text, and `POST /chat`
returns 200 with that non-empty text rather than a 500. -/
theorem chat_model_exception_fallback_200 (llm : LLM) (sys : String)
    (st : Store) (message session_id e : String)
    (hvalid : validate_chat_request message session_id = true)
    (hraise : llm (assembled_prompt sys
        (get_history st session_id ++ [⟨"user", message⟩])) = .raises e) :
    (post_chat true llm sys st message session_id).1 =
      .ok (errorFallback e) session_id ∧
    errorFallback e ≠ "" := by
  constructor
  · simp [post_chat, hvalid, chat, agent_step, call_model, hraise]
  · intro h
    have h1 := congrArg String.length h
    rw [errorFallback, String.length_append] at h1
    have h2 : ("处理请求时发生错误: " : String).length = 11 := by decide
    have h3 : ("" : String).length = 0 := rfl
    omega

/-- Witness for the amended C1 at a concrete raising model. -/
theorem chat_model_exception_fallback_200_witness :
    (post_chat true (fun _ => LLMOutcome.raises "net down")
        SYSTEM_PROMPT [] "hi" "s1").1 =
      .ok (errorFallback "net down") "s1" ∧
    errorFallback "net down" ≠ "" :=
  chat_model_exception_fallback_200 (fun _ => LLMOutcome.raises "net down")
    SYSTEM_PROMPT [] "hi" "s1" "net down" (by decide) rfl

/-- C6: `config.py` defines `REQUEST_TIMEOUT = 30` (and `LLM_TIMEOUT = 60`),
but `_create_llm` constructs the model client without passing any timeout
keyword, so no request-level timeout is configured on the remote call;
exceptions the call does raise are still replaced by the fallback reply. -/
theorem request_timeout_defined_but_unused :
    REQUEST_TIMEOUT = 30 ∧ LLM_TIMEOUT = 60 ∧
    ∀ config : AgentConfig, (create_llm config).timeout = none :=
  ⟨rfl, rfl, fun _ => rfl⟩

end LanggraphServer
